import Mathlib

/-!
# The SDL2 + Vulkan binding of `imgui_impl_main.cpp`

A shallow embedding of the four C-linkage entry points of
`src/imgui_impl_main.cpp`:

* `imguiImpl_Init`
* `imguiImpl_GetWindowSize`
* `imguiImpl_NewFrameSDL`
* `imguiImpl_Destroy`

The functions own one piece of state, the file-scope pointer `g_SDLWindow`, and
otherwise only call into SDL, Vulkan-side helpers (`Viewport_*`) and Dear ImGui.
Each entry point is a function of

* the results the external calls report during the call (`Env`),
* the value of `g_SDLWindow` on entry,
* its C arguments,

and yields the value of `g_SDLWindow` on exit, the values stored to it, the
ordered trace of external calls (with their arguments) and the C return value.
-/

namespace ImguiImpl

/-- Pointers and opaque handles (`SDL_Window*`, `Viewport_Context*`,
`VkInstance`, `VkSurfaceKHR`) are addresses; `0` is the null pointer. -/
abbrev Ptr := Nat

/-- The null pointer `NULL`. -/
def NULL : Ptr := 0

/-- The null Vulkan handle `VK_NULL_HANDLE`. -/
def VK_NULL_HANDLE : Ptr := 0

/-- The subsystem flags of `SDL_Init`; an `|` of flags is the list of its operands. -/
inductive SDL_InitFlag where
  | SDL_INIT_TIMER
  | SDL_INIT_AUDIO
  | SDL_INIT_VIDEO
  | SDL_INIT_JOYSTICK
  | SDL_INIT_HAPTIC
  | SDL_INIT_GAMECONTROLLER
  | SDL_INIT_EVENTS
  deriving DecidableEq, Repr

/-- The window flags of `SDL_CreateWindow` used or excluded by the code. -/
inductive SDL_WindowFlags where
  | SDL_WINDOW_FULLSCREEN
  | SDL_WINDOW_OPENGL
  | SDL_WINDOW_RESIZABLE
  | SDL_WINDOW_ALLOW_HIGHDPI
  | SDL_WINDOW_VULKAN
  deriving DecidableEq, Repr

/-- A window position argument of `SDL_CreateWindow`. -/
inductive SDL_WindowPos where
  | SDL_WINDOWPOS_UNDEFINED
  | SDL_WINDOWPOS_CENTERED
  | pos (x : Int)
  deriving DecidableEq, Repr

/-- The Vulkan sample counts. -/
inductive VkSampleCountFlagBits where
  | VK_SAMPLE_COUNT_1_BIT
  | VK_SAMPLE_COUNT_2_BIT
  | VK_SAMPLE_COUNT_4_BIT
  | VK_SAMPLE_COUNT_8_BIT
  | VK_SAMPLE_COUNT_16_BIT
  | VK_SAMPLE_COUNT_32_BIT
  | VK_SAMPLE_COUNT_64_BIT
  deriving DecidableEq, Repr

/-- One external call, with the arguments it receives.

* `printf text` carries the formatted text written to standard output.
* `SDL_Vulkan_GetInstanceExtensions window count names` carries the value
  `*pCount` holds on entry and the `pNames` argument: `none` for `NULL`,
  `some n` for a freshly allocated array of `n` entries.
* `Viewport_SetupVulkan context extensions count` carries the contents of the
  `extensions` array.
* `IMGUI_CHECKVERSION` is the invocation of the `imgui.h` version-check macro
  (line 64), which `imgui.h` defines as a call of
  `ImGui::DebugCheckVersionAndDataLayout`.
* Out-parameters (`&surface`, `&w`, `&h`) are addresses of locals and are not
  recorded; what the call writes there is part of `Env`.
* The `new[]` and `delete[]` of the local `extensions` array are language
  operations, not calls into the bound libraries; the array shows up as the
  `names` argument of the second `SDL_Vulkan_GetInstanceExtensions` call. -/
inductive Event where
  | SDL_Init (flags : List SDL_InitFlag)
  | SDL_GetError
  | printf (text : String)
  | SDL_CreateWindow (title : String) (x y : SDL_WindowPos) (w h : Int)
      (flags : List SDL_WindowFlags)
  | SDL_Vulkan_GetInstanceExtensions (window : Ptr) (count : Nat) (names : Option Nat)
  | Viewport_SetupVulkan (context : Ptr) (extensions : List String) (extensions_count : Nat)
  | SDL_Vulkan_CreateSurface (window : Ptr) (inst : Ptr)
  | SDL_GetWindowSize (window : Ptr)
  | Viewport_SetupWindow (context : Ptr) (surface : Ptr) (width height : Int)
      (ms : VkSampleCountFlagBits) (min_image_count : Nat) (clear_enable : Bool)
  | IMGUI_CHECKVERSION
  | ImGui_CreateContext
  | ImGui_GetIO
  | ImGui_StyleColorsDark
  | ImGui_ImplSDL2_InitForVulkan (window : Ptr)
  | ImGui_ImplVulkan_Init (context : Ptr)
  | ImGui_ImplSDL2_NewFrame (window : Ptr)
  | ImGui_ImplVulkan_Shutdown (context : Ptr)
  | ImGui_ImplSDL2_Shutdown
  | ImGui_DestroyContext
  | Viewport_CleanupWindow (context : Ptr)
  | Viewport_CleanupVulkan (context : Ptr)
  | SDL_DestroyWindow (window : Ptr)
  | SDL_Quit
  deriving DecidableEq, Repr

open Event SDL_InitFlag SDL_WindowFlags SDL_WindowPos VkSampleCountFlagBits

/-- The name of the function (or macro) an event calls, as written in the source. -/
def Event.name : Event → String
  | SDL_Init _ => "SDL_Init"
  | SDL_GetError => "SDL_GetError"
  | printf _ => "printf"
  | SDL_CreateWindow _ _ _ _ _ _ => "SDL_CreateWindow"
  | SDL_Vulkan_GetInstanceExtensions _ _ _ => "SDL_Vulkan_GetInstanceExtensions"
  | Viewport_SetupVulkan _ _ _ => "Viewport_SetupVulkan"
  | SDL_Vulkan_CreateSurface _ _ => "SDL_Vulkan_CreateSurface"
  | SDL_GetWindowSize _ => "SDL_GetWindowSize"
  | Viewport_SetupWindow _ _ _ _ _ _ _ => "Viewport_SetupWindow"
  | IMGUI_CHECKVERSION => "IMGUI_CHECKVERSION"
  | ImGui_CreateContext => "ImGui::CreateContext"
  | ImGui_GetIO => "ImGui::GetIO"
  | ImGui_StyleColorsDark => "ImGui::StyleColorsDark"
  | ImGui_ImplSDL2_InitForVulkan _ => "ImGui_ImplSDL2_InitForVulkan"
  | ImGui_ImplVulkan_Init _ => "ImGui_ImplVulkan_Init"
  | ImGui_ImplSDL2_NewFrame _ => "ImGui_ImplSDL2_NewFrame"
  | ImGui_ImplVulkan_Shutdown _ => "ImGui_ImplVulkan_Shutdown"
  | ImGui_ImplSDL2_Shutdown => "ImGui_ImplSDL2_Shutdown"
  | ImGui_DestroyContext => "ImGui::DestroyContext"
  | Viewport_CleanupWindow _ => "Viewport_CleanupWindow"
  | Viewport_CleanupVulkan _ => "Viewport_CleanupVulkan"
  | SDL_DestroyWindow _ => "SDL_DestroyWindow"
  | SDL_Quit => "SDL_Quit"

/-- The texts written by the `printf` calls of a trace, in order. -/
def printed : List Event → List String
  | [] => []
  | printf text :: rest => text :: printed rest
  | _ :: rest => printed rest

/-- The names of the calls of a trace, in order. -/
def names (trace : List Event) : List String :=
  trace.map Event.name

/-- The results the external calls report during one call of an entry point.
Every external function is called at most once per entry-point call, except
`SDL_Vulkan_GetInstanceExtensions`, which has one group of fields per call site.

* `SDL_Init`: the `int` returned by `SDL_Init`.
* `SDL_GetError`: the string returned by `SDL_GetError`.
* `SDL_CreateWindow`: the window pointer returned (`NULL` on failure).
* `query_ret`, `query_count`: the `SDL_bool` returned by the first
  `SDL_Vulkan_GetInstanceExtensions` call and the value of `extensions_count`
  after it.
* `fill_ret`, `fill_count`, `fill_names`: the same for the second call, with the
  contents of the `extensions` array after it.
* `Viewport_SetupVulkan`: the `VkInstance` returned.
* `SDL_Vulkan_CreateSurface`, `surface`: the `SDL_bool` returned and the value
  of `surface` after the call.
* `w`, `h`: the values `SDL_GetWindowSize` reports through its two `int*`.
* `ImGui_ImplSDL2_InitForVulkan`, `ImGui_ImplVulkan_Init`: the `bool`s returned. -/
structure Env where
  SDL_Init : Int
  SDL_GetError : String
  SDL_CreateWindow : Ptr
  query_ret : Int
  query_count : Nat
  fill_ret : Int
  fill_count : Nat
  fill_names : List String
  Viewport_SetupVulkan : Ptr
  SDL_Vulkan_CreateSurface : Int
  surface : Ptr
  w : Int
  h : Int
  ImGui_ImplSDL2_InitForVulkan : Bool
  ImGui_ImplVulkan_Init : Bool
  deriving DecidableEq, Repr

/-- What a call of `imguiImpl_Init` leaves behind: the returned `bool`, the
value of `g_SDLWindow` on exit, the values assigned to `g_SDLWindow` during the
call (in order) and the trace of external calls. -/
structure InitResult where
  ret : Bool
  g_SDLWindow : Ptr
  stores : List Ptr
  trace : List Event
  deriving DecidableEq, Repr

/-- What a call of a `void` entry point leaves behind. -/
structure VoidResult where
  g_SDLWindow : Ptr
  stores : List Ptr
  trace : List Event
  deriving DecidableEq, Repr

/-- What a call of `imguiImpl_GetWindowSize` leaves behind: as `VoidResult`,
with the `uint32_t` values of `*width` and `*height` on exit. -/
structure SizeResult where
  g_SDLWindow : Ptr
  stores : List Ptr
  trace : List Event
  width : Nat
  height : Nat
  deriving DecidableEq, Repr

/-- The `uint32_t` read from an object into which an `int` was written through
an `(int*)` cast: the same 32 bits, that is the value modulo `2^32`. -/
def int_as_uint32 (i : Int) : Nat :=
  (i % (2 ^ 32 : Int)).toNat

/-- `imguiImpl_Init(title, width, height, context)`, lines 22-79.
The result is `none` when `assert(context != NULL)` fails (the process aborts). -/
def imguiImpl_Init (env : Env) (g_SDLWindow : Ptr) (title : String) (width height : Int)
    (context : Ptr) : Option InitResult :=
  -- assert(context != NULL);
  if context = NULL then none else
  -- Setup SDL
  let t1 := [SDL_Init [SDL_INIT_VIDEO, SDL_INIT_TIMER, SDL_INIT_GAMECONTROLLER]]
  if env.SDL_Init ≠ 0 then
    some { ret := false, g_SDLWindow := g_SDLWindow, stores := [],
           trace := t1 ++ [SDL_GetError, printf ("Error: " ++ env.SDL_GetError ++ "\n")] }
  else
  -- Setup window
  let window_flags := [SDL_WINDOW_VULKAN, SDL_WINDOW_RESIZABLE, SDL_WINDOW_ALLOW_HIGHDPI]
  let t2 := t1 ++ [SDL_CreateWindow title SDL_WINDOWPOS_CENTERED SDL_WINDOWPOS_CENTERED
                     width height window_flags]
  let g_SDLWindow := env.SDL_CreateWindow
  let stores := [env.SDL_CreateWindow]
  -- Setup Vulkan
  let extensions_count := 0
  let t3 := t2 ++ [SDL_Vulkan_GetInstanceExtensions g_SDLWindow extensions_count none]
  let extensions_count := env.query_count
  -- const char** extensions = new const char*[extensions_count];
  let t4 := t3 ++ [SDL_Vulkan_GetInstanceExtensions g_SDLWindow extensions_count
                     (some extensions_count)]
  let extensions := env.fill_names
  let extensions_count := env.fill_count
  let t5 := t4 ++ [Viewport_SetupVulkan context extensions extensions_count]
  let inst := env.Viewport_SetupVulkan
  -- delete[] extensions;
  if inst = VK_NULL_HANDLE then
    some { ret := false, g_SDLWindow := g_SDLWindow, stores := stores,
           trace := t5 ++ [printf "Failed to create Vulkan instance.\n"] }
  else
  -- Create Window Surface
  let t6 := t5 ++ [SDL_Vulkan_CreateSurface g_SDLWindow inst]
  if env.SDL_Vulkan_CreateSurface = 0 then
    some { ret := false, g_SDLWindow := g_SDLWindow, stores := stores,
           trace := t6 ++ [printf "Failed to create Vulkan surface.\n"] }
  else
  let surface := env.surface
  -- Create Framebuffers
  let t7 := t6 ++ [SDL_GetWindowSize g_SDLWindow]
  let w := env.w
  let h := env.h
  let t8 := t7 ++ [Viewport_SetupWindow context surface w h VK_SAMPLE_COUNT_1_BIT 2 true]
  -- Setup Dear ImGui context
  let t9 := t8 ++ [IMGUI_CHECKVERSION, ImGui_CreateContext, ImGui_GetIO]
  -- Setup Dear ImGui style
  let t10 := t9 ++ [ImGui_StyleColorsDark]
  -- Setup Platform/Renderer bindings
  let t11 := t10 ++ [ImGui_ImplSDL2_InitForVulkan g_SDLWindow, ImGui_ImplVulkan_Init context]
  some { ret := true, g_SDLWindow := g_SDLWindow, stores := stores, trace := t11 }

/-- `imguiImpl_GetWindowSize(context, width, height)`, lines 81-84. -/
def imguiImpl_GetWindowSize (env : Env) (g_SDLWindow : Ptr) (_context : Ptr) : SizeResult :=
  { g_SDLWindow := g_SDLWindow, stores := [],
    trace := [SDL_GetWindowSize g_SDLWindow],
    width := int_as_uint32 env.w, height := int_as_uint32 env.h }

/-- `imguiImpl_NewFrameSDL(context)`, lines 86-89. -/
def imguiImpl_NewFrameSDL (g_SDLWindow : Ptr) (_context : Ptr) : VoidResult :=
  { g_SDLWindow := g_SDLWindow, stores := [],
    trace := [ImGui_ImplSDL2_NewFrame g_SDLWindow] }

/-- `imguiImpl_Destroy(context)`, lines 92-104. -/
def imguiImpl_Destroy (g_SDLWindow : Ptr) (context : Ptr) : VoidResult :=
  -- Cleanup
  let t1 := [ImGui_ImplVulkan_Shutdown context, ImGui_ImplSDL2_Shutdown, ImGui_DestroyContext]
  let t2 := t1 ++ [Viewport_CleanupWindow context, Viewport_CleanupVulkan context]
  let t3 := t2 ++ [SDL_DestroyWindow g_SDLWindow]
  let g_SDLWindow := NULL
  let t4 := t3 ++ [SDL_Quit]
  { g_SDLWindow := g_SDLWindow, stores := [NULL], trace := t4 }

/-- One call of an entry point by the client, with the results the external
calls report during it. -/
inductive EntryCall where
  | Init (env : Env) (title : String) (width height : Int) (context : Ptr)
  | GetWindowSize (env : Env) (context : Ptr)
  | NewFrameSDL (context : Ptr)
  | Destroy (context : Ptr)

/-- The value of `g_SDLWindow` after one entry-point call entered with value
`g`; `none` when the call aborts. -/
def EntryCall.exec (g : Ptr) : EntryCall → Option Ptr
  | Init env title width height context =>
      (imguiImpl_Init env g title width height context).map InitResult.g_SDLWindow
  | GetWindowSize env context => some (imguiImpl_GetWindowSize env g context).g_SDLWindow
  | NewFrameSDL context => some (imguiImpl_NewFrameSDL g context).g_SDLWindow
  | Destroy context => some (imguiImpl_Destroy g context).g_SDLWindow

/-- The value of `g_SDLWindow` after a sequence of entry-point calls, started
with value `g`; `none` when one of them aborts. -/
def runCalls (g : Ptr) : List EntryCall → Option Ptr
  | [] => some g
  | c :: rest =>
      match c.exec g with
      | none => none
      | some g1 => runCalls g1 rest

/-- An environment in which every step of `imguiImpl_Init` succeeds. -/
def envOk : Env :=
  { SDL_Init := 0, SDL_GetError := "", SDL_CreateWindow := 100,
    query_ret := 1, query_count := 2, fill_ret := 1, fill_count := 2,
    fill_names := ["VK_KHR_surface", "VK_KHR_xlib_surface"],
    Viewport_SetupVulkan := 200, SDL_Vulkan_CreateSurface := 1, surface := 300,
    w := 1280, h := 720,
    ImGui_ImplSDL2_InitForVulkan := true, ImGui_ImplVulkan_Init := true }

/-- An environment in which every step succeeds except the last one:
`ImGui_ImplVulkan_Init` returns `false`. -/
def envRendererFails : Env :=
  { envOk with ImGui_ImplVulkan_Init := false }

/-- An environment in which `SDL_Init` fails with `-1`. -/
def envSdlFails : Env :=
  { envOk with SDL_Init := -1, SDL_GetError := "No available video device" }

/-- An environment in which `Viewport_SetupVulkan` returns a null instance. -/
def envInstanceFails : Env :=
  { envOk with Viewport_SetupVulkan := VK_NULL_HANDLE }

/-- An environment in which `SDL_Vulkan_CreateSurface` returns `SDL_FALSE`. -/
def envSurfaceFails : Env :=
  { envOk with SDL_Vulkan_CreateSurface := 0 }

/-- The trace of a call of `imguiImpl_Init` that passes all three checks. -/
def fullTrace (env : Env) (title : String) (width height : Int) (context : Ptr) : List Event :=
  [SDL_Init [SDL_INIT_VIDEO, SDL_INIT_TIMER, SDL_INIT_GAMECONTROLLER],
   SDL_CreateWindow title SDL_WINDOWPOS_CENTERED SDL_WINDOWPOS_CENTERED width height
     [SDL_WINDOW_VULKAN, SDL_WINDOW_RESIZABLE, SDL_WINDOW_ALLOW_HIGHDPI],
   SDL_Vulkan_GetInstanceExtensions env.SDL_CreateWindow 0 none,
   SDL_Vulkan_GetInstanceExtensions env.SDL_CreateWindow env.query_count (some env.query_count),
   Viewport_SetupVulkan context env.fill_names env.fill_count,
   SDL_Vulkan_CreateSurface env.SDL_CreateWindow env.Viewport_SetupVulkan,
   SDL_GetWindowSize env.SDL_CreateWindow,
   Viewport_SetupWindow context env.surface env.w env.h VK_SAMPLE_COUNT_1_BIT 2 true,
   IMGUI_CHECKVERSION,
   ImGui_CreateContext,
   ImGui_GetIO,
   ImGui_StyleColorsDark,
   ImGui_ImplSDL2_InitForVulkan env.SDL_CreateWindow,
   ImGui_ImplVulkan_Init context]

/-- The environment that reports what `env` reports, except that the three
checked steps succeed: `SDL_Init` returns `0`, and a null instance or a false
surface result is replaced by `1`. -/
def Env.allSucceed (env : Env) : Env :=
  { env with
    SDL_Init := 0
    Viewport_SetupVulkan :=
      if env.Viewport_SetupVulkan = VK_NULL_HANDLE then 1 else env.Viewport_SetupVulkan
    SDL_Vulkan_CreateSurface :=
      if env.SDL_Vulkan_CreateSurface = 0 then 1 else env.SDL_Vulkan_CreateSurface }

/-- Whether an entry-point call passes the assertion at its head: only
`imguiImpl_Init` has one, `assert(context != NULL)`. -/
def EntryCall.passesAssert : EntryCall → Bool
  | EntryCall.Init _ _ _ _ context => context != NULL
  | _ => true

/-! ## The four paths through `imguiImpl_Init` -/

theorem init_of_sdl_fail (env : Env) (g : Ptr) (title : String) (width height : Int)
    (context : Ptr) (hctx : context ≠ NULL) (h : env.SDL_Init ≠ 0) :
    imguiImpl_Init env g title width height context =
      some { ret := false, g_SDLWindow := g, stores := [],
             trace := (fullTrace env title width height context).take 1 ++
               [SDL_GetError, printf ("Error: " ++ env.SDL_GetError ++ "\n")] } := by
  simp [imguiImpl_Init, hctx, h, fullTrace]

theorem init_of_instance_fail (env : Env) (g : Ptr) (title : String) (width height : Int)
    (context : Ptr) (hctx : context ≠ NULL) (h1 : env.SDL_Init = 0)
    (h2 : env.Viewport_SetupVulkan = VK_NULL_HANDLE) :
    imguiImpl_Init env g title width height context =
      some { ret := false, g_SDLWindow := env.SDL_CreateWindow,
             stores := [env.SDL_CreateWindow],
             trace := (fullTrace env title width height context).take 5 ++
               [printf "Failed to create Vulkan instance.\n"] } := by
  simp [imguiImpl_Init, hctx, h1, h2, fullTrace]

theorem init_of_surface_fail (env : Env) (g : Ptr) (title : String) (width height : Int)
    (context : Ptr) (hctx : context ≠ NULL) (h1 : env.SDL_Init = 0)
    (h2 : env.Viewport_SetupVulkan ≠ VK_NULL_HANDLE) (h3 : env.SDL_Vulkan_CreateSurface = 0) :
    imguiImpl_Init env g title width height context =
      some { ret := false, g_SDLWindow := env.SDL_CreateWindow,
             stores := [env.SDL_CreateWindow],
             trace := (fullTrace env title width height context).take 6 ++
               [printf "Failed to create Vulkan surface.\n"] } := by
  simp [imguiImpl_Init, hctx, h1, h2, h3, fullTrace]

theorem init_of_ok (env : Env) (g : Ptr) (title : String) (width height : Int)
    (context : Ptr) (hctx : context ≠ NULL) (h1 : env.SDL_Init = 0)
    (h2 : env.Viewport_SetupVulkan ≠ VK_NULL_HANDLE) (h3 : env.SDL_Vulkan_CreateSurface ≠ 0) :
    imguiImpl_Init env g title width height context =
      some { ret := true, g_SDLWindow := env.SDL_CreateWindow,
             stores := [env.SDL_CreateWindow],
             trace := fullTrace env title width height context } := by
  simp [imguiImpl_Init, hctx, h1, h2, h3, fullTrace]

theorem init_of_allSucceed (env : Env) (g : Ptr) (title : String) (width height : Int)
    (context : Ptr) (hctx : context ≠ NULL) :
    imguiImpl_Init env.allSucceed g title width height context =
      some { ret := true, g_SDLWindow := env.SDL_CreateWindow,
             stores := [env.SDL_CreateWindow],
             trace := fullTrace env.allSucceed title width height context } := by
  have h2 : env.allSucceed.Viewport_SetupVulkan ≠ VK_NULL_HANDLE := by
    by_cases h : env.Viewport_SetupVulkan = VK_NULL_HANDLE
    · simp [Env.allSucceed, h, VK_NULL_HANDLE]
    · simp [Env.allSucceed, h]
  have h3 : env.allSucceed.SDL_Vulkan_CreateSurface ≠ 0 := by
    by_cases h : env.SDL_Vulkan_CreateSurface = 0
    · simp [Env.allSucceed, h]
    · simp [Env.allSucceed, h]
  exact init_of_ok env.allSucceed g title width height context hctx rfl h2 h3

theorem init_of_null_context (env : Env) (g : Ptr) (title : String) (width height : Int) :
    imguiImpl_Init env g title width height NULL = none := by
  simp [imguiImpl_Init]

theorem context_ne_of_init (env : Env) (g : Ptr) (title : String) (width height : Int)
    (context : Ptr) (r : InitResult)
    (hrun : imguiImpl_Init env g title width height context = some r) : context ≠ NULL := by
  intro h
  rw [h, init_of_null_context] at hrun
  exact Option.noConfusion hrun

/-! ## Error reporting of `imguiImpl_Init` -/

/-- C1 (as stated) fails: in `envRendererFails` the step `ImGui_ImplVulkan_Init`
returns `false`, yet `imguiImpl_Init` returns `true` and prints nothing. -/
theorem init_unchecked_failure_counterexample :
    envRendererFails.ImGui_ImplVulkan_Init = false ∧
    (imguiImpl_Init envRendererFails NULL "mandelbrot" 1280 720 1).map InitResult.ret
      = some true ∧
    (imguiImpl_Init envRendererFails NULL "mandelbrot" 1280 720 1).map
      (fun r => printed r.trace) = some [] := by
  refine ⟨rfl, ?_, ?_⟩ <;>
    simp [imguiImpl_Init, envRendererFails, envOk, NULL, VK_NULL_HANDLE, printed]

/-- C1 (amended): for every call of `imguiImpl_Init` with a non-null context,
if `SDL_Init` returns nonzero, or `Viewport_SetupVulkan` returns a null
instance, or `SDL_Vulkan_CreateSurface` returns false, then the call prints a
message and returns `false`. -/
theorem init_checked_failure_reported (env : Env) (g : Ptr) (title : String)
    (width height : Int) (context : Ptr) (hctx : context ≠ NULL)
    (hfail : env.SDL_Init ≠ 0 ∨ env.Viewport_SetupVulkan = VK_NULL_HANDLE ∨
      env.SDL_Vulkan_CreateSurface = 0) :
    ∃ r, imguiImpl_Init env g title width height context = some r ∧
      r.ret = false ∧ printed r.trace ≠ [] := by
  by_cases h1 : env.SDL_Init = 0
  · by_cases h2 : env.Viewport_SetupVulkan = VK_NULL_HANDLE
    · exact ⟨_, init_of_instance_fail env g title width height context hctx h1 h2, rfl,
        by simp [fullTrace, printed]⟩
    · have h3 : env.SDL_Vulkan_CreateSurface = 0 := by
        rcases hfail with h | h | h
        · exact absurd h1 h
        · exact absurd h h2
        · exact h
      exact ⟨_, init_of_surface_fail env g title width height context hctx h1 h2 h3, rfl,
        by simp [fullTrace, printed]⟩
  · exact ⟨_, init_of_sdl_fail env g title width height context hctx h1, rfl,
      by simp [fullTrace, printed]⟩

/-- Witness of C1 (amended): a failing `SDL_Vulkan_CreateSurface`. -/
theorem init_checked_failure_reported_witness :
    (1 : Ptr) ≠ NULL ∧ envSurfaceFails.SDL_Vulkan_CreateSurface = 0 ∧
    ∃ r, imguiImpl_Init envSurfaceFails NULL "mandelbrot" 1280 720 1 = some r ∧
      r.ret = false ∧ printed r.trace ≠ [] :=
  ⟨by decide, rfl,
    init_checked_failure_reported envSurfaceFails NULL "mandelbrot" 1280 720 1 (by decide)
      (Or.inr (Or.inr rfl))⟩

/-- C2: every call of `imguiImpl_Init` (with the non-null context its assertion
demands) returns; it returns `false` exactly when it printed exactly one
message, and prints nothing when it returns `true`. The printed line is
`Error: <SDL_GetError()>` when `SDL_Init` failed, `Failed to create Vulkan
instance.` when `Viewport_SetupVulkan` returned a null instance, and `Failed to
create Vulkan surface.` when `SDL_Vulkan_CreateSurface` failed (each followed by
the newline of the format string). -/
theorem init_false_iff_one_message (env : Env) (g : Ptr) (title : String)
    (width height : Int) (context : Ptr) (hctx : context ≠ NULL) :
    ∃ r, imguiImpl_Init env g title width height context = some r ∧
      (r.ret = false ↔ (printed r.trace).length = 1) ∧
      (r.ret = true → printed r.trace = []) ∧
      (env.SDL_Init ≠ 0 →
        printed r.trace = ["Error: " ++ env.SDL_GetError ++ "\n"]) ∧
      (env.SDL_Init = 0 → env.Viewport_SetupVulkan = VK_NULL_HANDLE →
        printed r.trace = ["Failed to create Vulkan instance." ++ "\n"]) ∧
      (env.SDL_Init = 0 → env.Viewport_SetupVulkan ≠ VK_NULL_HANDLE →
        env.SDL_Vulkan_CreateSurface = 0 →
        printed r.trace = ["Failed to create Vulkan surface." ++ "\n"]) := by
  by_cases h1 : env.SDL_Init = 0
  · by_cases h2 : env.Viewport_SetupVulkan = VK_NULL_HANDLE
    · refine ⟨_, init_of_instance_fail env g title width height context hctx h1 h2, ?_⟩
      simp [fullTrace, printed, h1, h2]
    · by_cases h3 : env.SDL_Vulkan_CreateSurface = 0
      · refine ⟨_, init_of_surface_fail env g title width height context hctx h1 h2 h3, ?_⟩
        simp [fullTrace, printed, h1, h2, h3]
      · refine ⟨_, init_of_ok env g title width height context hctx h1 h2 h3, ?_⟩
        simp [fullTrace, printed, h1, h2, h3]
  · refine ⟨_, init_of_sdl_fail env g title width height context hctx h1, ?_⟩
    simp [fullTrace, printed, h1]

/-- Witness of C2: a call in which `SDL_Init` fails. -/
theorem init_false_iff_one_message_witness :
    (1 : Ptr) ≠ NULL ∧
    ∃ r, imguiImpl_Init envSdlFails NULL "mandelbrot" 1280 720 1 = some r ∧
      (r.ret = false ↔ (printed r.trace).length = 1) ∧
      (r.ret = true → printed r.trace = []) ∧
      (envSdlFails.SDL_Init ≠ 0 →
        printed r.trace = ["Error: " ++ envSdlFails.SDL_GetError ++ "\n"]) ∧
      (envSdlFails.SDL_Init = 0 → envSdlFails.Viewport_SetupVulkan = VK_NULL_HANDLE →
        printed r.trace = ["Failed to create Vulkan instance." ++ "\n"]) ∧
      (envSdlFails.SDL_Init = 0 → envSdlFails.Viewport_SetupVulkan ≠ VK_NULL_HANDLE →
        envSdlFails.SDL_Vulkan_CreateSurface = 0 →
        printed r.trace = ["Failed to create Vulkan surface." ++ "\n"]) :=
  ⟨by decide, init_false_iff_one_message envSdlFails NULL "mandelbrot" 1280 720 1 (by decide)⟩

/-! ## The window handle -/

theorem init_isSome (env : Env) (g : Ptr) (title : String) (width height : Int)
    (context : Ptr) (hctx : context ≠ NULL) :
    ∃ r, imguiImpl_Init env g title width height context = some r := by
  by_cases h1 : env.SDL_Init = 0
  · by_cases h2 : env.Viewport_SetupVulkan = VK_NULL_HANDLE
    · exact ⟨_, init_of_instance_fail env g title width height context hctx h1 h2⟩
    · by_cases h3 : env.SDL_Vulkan_CreateSurface = 0
      · exact ⟨_, init_of_surface_fail env g title width height context hctx h1 h2 h3⟩
      · exact ⟨_, init_of_ok env g title width height context hctx h1 h2 h3⟩
  · exact ⟨_, init_of_sdl_fail env g title width height context hctx h1⟩

theorem exec_isSome (g : Ptr) (c : EntryCall) (hc : c.passesAssert = true) :
    ∃ g1, c.exec g = some g1 := by
  cases c with
  | Init env title width height context =>
      have hctx : context ≠ NULL := by simpa [EntryCall.passesAssert] using hc
      obtain ⟨r, hr⟩ := init_isSome env g title width height context hctx
      exact ⟨r.g_SDLWindow, by simp [EntryCall.exec, hr]⟩
  | GetWindowSize env context => exact ⟨_, rfl⟩
  | NewFrameSDL context => exact ⟨_, rfl⟩
  | Destroy context => exact ⟨_, rfl⟩

theorem runCalls_isSome (calls : List EntryCall) :
    ∀ g : Ptr, (∀ c ∈ calls, c.passesAssert = true) → ∃ g1, runCalls g calls = some g1 := by
  induction calls with
  | nil => intro g _; exact ⟨g, rfl⟩
  | cons c rest ih =>
      intro g h
      obtain ⟨g1, hg1⟩ := exec_isSome g c (h c (List.mem_cons_self _ _))
      obtain ⟨g2, hg2⟩ := ih g1 (fun d hd => h d (List.mem_cons_of_mem _ hd))
      exact ⟨g2, by simp [runCalls, hg1, hg2]⟩

theorem runCalls_append (xs ys : List EntryCall) :
    ∀ g : Ptr, runCalls g (xs ++ ys) = (runCalls g xs).bind (fun g1 => runCalls g1 ys) := by
  induction xs with
  | nil => intro g; simp [runCalls]
  | cons c rest ih =>
      intro g
      cases hc : c.exec g with
      | none => simp [runCalls, hc]
      | some g1 => simp [runCalls, hc, ih]

/-- C3: the window handle `g_SDLWindow` is the state threaded through the four
entry points, and it is written as follows. `imguiImpl_Init` stores to it at
most once per call, and only the value returned by `SDL_CreateWindow`;
`imguiImpl_GetWindowSize` and `imguiImpl_NewFrameSDL` store nothing and leave it
unchanged; `imguiImpl_Destroy` leaves it `NULL` whatever it was. Hence, from
the initial state `NULL`, any sequence of calls that contains an Init and ends
with a Destroy ends with the handle at `NULL`. -/
theorem window_handle_writes (env : Env) (g : Ptr) (title : String) (width height : Int)
    (context : Ptr) (before between : List EntryCall) (last_context : Ptr)
    (hctx : context ≠ NULL)
    (hbefore : ∀ c ∈ before, c.passesAssert = true)
    (hbetween : ∀ c ∈ between, c.passesAssert = true) :
    (∃ r, imguiImpl_Init env g title width height context = some r ∧
      r.stores.length ≤ 1 ∧ (∀ v ∈ r.stores, v = env.SDL_CreateWindow) ∧
      ((r.stores = [] ∧ r.g_SDLWindow = g) ∨
       (r.stores = [env.SDL_CreateWindow] ∧ r.g_SDLWindow = env.SDL_CreateWindow))) ∧
    ((imguiImpl_GetWindowSize env g context).stores = [] ∧
      (imguiImpl_GetWindowSize env g context).g_SDLWindow = g) ∧
    ((imguiImpl_NewFrameSDL g context).stores = [] ∧
      (imguiImpl_NewFrameSDL g context).g_SDLWindow = g) ∧
    ((imguiImpl_Destroy g context).stores = [NULL] ∧
      (imguiImpl_Destroy g context).g_SDLWindow = NULL) ∧
    runCalls NULL (before ++ [EntryCall.Init env title width height context] ++ between ++
      [EntryCall.Destroy last_context]) = some NULL := by
  refine ⟨?_, ⟨rfl, rfl⟩, ⟨rfl, rfl⟩, ⟨rfl, rfl⟩, ?_⟩
  · by_cases h1 : env.SDL_Init = 0
    · by_cases h2 : env.Viewport_SetupVulkan = VK_NULL_HANDLE
      · exact ⟨_, init_of_instance_fail env g title width height context hctx h1 h2,
          by simp⟩
      · by_cases h3 : env.SDL_Vulkan_CreateSurface = 0
        · exact ⟨_, init_of_surface_fail env g title width height context hctx h1 h2 h3,
            by simp⟩
        · exact ⟨_, init_of_ok env g title width height context hctx h1 h2 h3, by simp⟩
    · exact ⟨_, init_of_sdl_fail env g title width height context hctx h1, by simp⟩
  · have hall : ∀ c ∈ before ++ [EntryCall.Init env title width height context] ++ between,
        c.passesAssert = true := by
      intro c hc
      simp only [List.mem_append, List.mem_singleton] at hc
      rcases hc with (hc | hc) | hc
      · exact hbefore c hc
      · subst hc
        simpa [EntryCall.passesAssert] using hctx
      · exact hbetween c hc
    obtain ⟨g1, hg1⟩ := runCalls_isSome _ NULL hall
    rw [runCalls_append, hg1]
    rfl

/-- Witness of C3: `Init`, then a frame, then `Destroy`, with a call that
creates window `100`. -/
theorem window_handle_writes_witness :
    (1 : Ptr) ≠ NULL ∧
    (∃ r, imguiImpl_Init envOk NULL "mandelbrot" 1280 720 1 = some r ∧
      r.stores.length ≤ 1 ∧ (∀ v ∈ r.stores, v = envOk.SDL_CreateWindow) ∧
      ((r.stores = [] ∧ r.g_SDLWindow = NULL) ∨
       (r.stores = [envOk.SDL_CreateWindow] ∧ r.g_SDLWindow = envOk.SDL_CreateWindow))) ∧
    ((imguiImpl_GetWindowSize envOk NULL 1).stores = [] ∧
      (imguiImpl_GetWindowSize envOk NULL 1).g_SDLWindow = NULL) ∧
    ((imguiImpl_NewFrameSDL NULL 1).stores = [] ∧
      (imguiImpl_NewFrameSDL NULL 1).g_SDLWindow = NULL) ∧
    ((imguiImpl_Destroy NULL 1).stores = [NULL] ∧
      (imguiImpl_Destroy NULL 1).g_SDLWindow = NULL) ∧
    runCalls NULL ([] ++ [EntryCall.Init envOk "mandelbrot" 1280 720 1] ++
      [EntryCall.NewFrameSDL 1, EntryCall.GetWindowSize envOk 1] ++
      [EntryCall.Destroy 1]) = some NULL :=
  ⟨by decide,
    window_handle_writes envOk NULL "mandelbrot" 1280 720 1 []
      [EntryCall.NewFrameSDL 1, EntryCall.GetWindowSize envOk 1] 1 (by decide)
      (by simp) (by simp [EntryCall.passesAssert])⟩

/-! ## The call sequences -/

theorem init_ret_true_cases (env : Env) (g : Ptr) (title : String) (width height : Int)
    (context : Ptr) (r : InitResult)
    (hrun : imguiImpl_Init env g title width height context = some r) (hret : r.ret = true) :
    r = { ret := true, g_SDLWindow := env.SDL_CreateWindow, stores := [env.SDL_CreateWindow],
          trace := fullTrace env title width height context } := by
  have hctx := context_ne_of_init env g title width height context r hrun
  by_cases h1 : env.SDL_Init = 0
  · by_cases h2 : env.Viewport_SetupVulkan = VK_NULL_HANDLE
    · rw [init_of_instance_fail env g title width height context hctx h1 h2] at hrun
      cases hrun
      simp at hret
    · by_cases h3 : env.SDL_Vulkan_CreateSurface = 0
      · rw [init_of_surface_fail env g title width height context hctx h1 h2 h3] at hrun
        cases hrun
        simp at hret
      · rw [init_of_ok env g title width height context hctx h1 h2 h3] at hrun
        cases hrun
        rfl
  · rw [init_of_sdl_fail env g title width height context hctx h1] at hrun
    cases hrun
    simp at hret

/-- C4 (as stated) fails: the call below returns `true`, and the names of its
external calls are not the thirteen listed, because the `IMGUI_CHECKVERSION`
call of line 64 stands between `Viewport_SetupWindow` and
`ImGui::CreateContext`. -/
theorem init_success_trace_counterexample :
    (imguiImpl_Init envOk NULL "mandelbrot" 1280 720 1).map InitResult.ret = some true ∧
    (imguiImpl_Init envOk NULL "mandelbrot" 1280 720 1).map (fun r => names r.trace) ≠
      some ["SDL_Init", "SDL_CreateWindow", "SDL_Vulkan_GetInstanceExtensions",
        "SDL_Vulkan_GetInstanceExtensions", "Viewport_SetupVulkan",
        "SDL_Vulkan_CreateSurface", "SDL_GetWindowSize", "Viewport_SetupWindow",
        "ImGui::CreateContext", "ImGui::GetIO", "ImGui::StyleColorsDark",
        "ImGui_ImplSDL2_InitForVulkan", "ImGui_ImplVulkan_Init"] := by
  constructor <;>
    simp [imguiImpl_Init, envOk, NULL, VK_NULL_HANDLE, names, Event.name]

/-- C4 (amended): for every call of `imguiImpl_Init` that returns `true`, the
trace of external calls is exactly, in this order: `SDL_Init`,
`SDL_CreateWindow`, `SDL_Vulkan_GetInstanceExtensions` (count query with a NULL
array), `SDL_Vulkan_GetInstanceExtensions` (fill), `Viewport_SetupVulkan`,
`SDL_Vulkan_CreateSurface`, `SDL_GetWindowSize`, `Viewport_SetupWindow`,
`IMGUI_CHECKVERSION`, `ImGui::CreateContext`, `ImGui::GetIO`,
`ImGui::StyleColorsDark`, `ImGui_ImplSDL2_InitForVulkan`,
`ImGui_ImplVulkan_Init`; each fallible step (`SDL_Init`,
`Viewport_SetupVulkan`, `SDL_Vulkan_CreateSurface`) occurs exactly once, and
every call that takes a context receives the caller's context pointer. -/
theorem init_success_trace (env : Env) (g : Ptr) (title : String) (width height : Int)
    (context : Ptr) (r : InitResult)
    (hrun : imguiImpl_Init env g title width height context = some r) (hret : r.ret = true) :
    r.trace =
      [SDL_Init [SDL_INIT_VIDEO, SDL_INIT_TIMER, SDL_INIT_GAMECONTROLLER],
       SDL_CreateWindow title SDL_WINDOWPOS_CENTERED SDL_WINDOWPOS_CENTERED width height
         [SDL_WINDOW_VULKAN, SDL_WINDOW_RESIZABLE, SDL_WINDOW_ALLOW_HIGHDPI],
       SDL_Vulkan_GetInstanceExtensions env.SDL_CreateWindow 0 none,
       SDL_Vulkan_GetInstanceExtensions env.SDL_CreateWindow env.query_count
         (some env.query_count),
       Viewport_SetupVulkan context env.fill_names env.fill_count,
       SDL_Vulkan_CreateSurface env.SDL_CreateWindow env.Viewport_SetupVulkan,
       SDL_GetWindowSize env.SDL_CreateWindow,
       Viewport_SetupWindow context env.surface env.w env.h VK_SAMPLE_COUNT_1_BIT 2 true,
       IMGUI_CHECKVERSION,
       ImGui_CreateContext,
       ImGui_GetIO,
       ImGui_StyleColorsDark,
       ImGui_ImplSDL2_InitForVulkan env.SDL_CreateWindow,
       ImGui_ImplVulkan_Init context] ∧
    (names r.trace).count "SDL_Init" = 1 ∧
    (names r.trace).count "Viewport_SetupVulkan" = 1 ∧
    (names r.trace).count "SDL_Vulkan_CreateSurface" = 1 := by
  rw [init_ret_true_cases env g title width height context r hrun hret]
  refine ⟨rfl, ?_, ?_, ?_⟩ <;> simp [fullTrace, names, Event.name, List.count_cons]

/-- Witness of C4 (amended): the successful call in `envOk`. -/
theorem init_success_trace_witness :
    imguiImpl_Init envOk NULL "mandelbrot" 1280 720 1 =
      some { ret := true, g_SDLWindow := 100, stores := [100],
             trace := fullTrace envOk "mandelbrot" 1280 720 1 } ∧
    (fullTrace envOk "mandelbrot" 1280 720 1 =
      [SDL_Init [SDL_INIT_VIDEO, SDL_INIT_TIMER, SDL_INIT_GAMECONTROLLER],
       SDL_CreateWindow "mandelbrot" SDL_WINDOWPOS_CENTERED SDL_WINDOWPOS_CENTERED 1280 720
         [SDL_WINDOW_VULKAN, SDL_WINDOW_RESIZABLE, SDL_WINDOW_ALLOW_HIGHDPI],
       SDL_Vulkan_GetInstanceExtensions 100 0 none,
       SDL_Vulkan_GetInstanceExtensions 100 2 (some 2),
       Viewport_SetupVulkan 1 ["VK_KHR_surface", "VK_KHR_xlib_surface"] 2,
       SDL_Vulkan_CreateSurface 100 200,
       SDL_GetWindowSize 100,
       Viewport_SetupWindow 1 300 1280 720 VK_SAMPLE_COUNT_1_BIT 2 true,
       IMGUI_CHECKVERSION,
       ImGui_CreateContext,
       ImGui_GetIO,
       ImGui_StyleColorsDark,
       ImGui_ImplSDL2_InitForVulkan 100,
       ImGui_ImplVulkan_Init 1] ∧
    (names (fullTrace envOk "mandelbrot" 1280 720 1)).count "SDL_Init" = 1 ∧
    (names (fullTrace envOk "mandelbrot" 1280 720 1)).count "Viewport_SetupVulkan" = 1 ∧
    (names (fullTrace envOk "mandelbrot" 1280 720 1)).count "SDL_Vulkan_CreateSurface" = 1) :=
  have hrun : imguiImpl_Init envOk NULL "mandelbrot" 1280 720 1 =
      some { ret := true, g_SDLWindow := 100, stores := [100],
             trace := fullTrace envOk "mandelbrot" 1280 720 1 } := by
    simp [imguiImpl_Init, envOk, NULL, VK_NULL_HANDLE, fullTrace]
  ⟨hrun, init_success_trace envOk NULL "mandelbrot" 1280 720 1 _ hrun rfl⟩

/-- C5: for every state and every context, `imguiImpl_Destroy` performs exactly
the calls `ImGui_ImplVulkan_Shutdown(context)`, `ImGui_ImplSDL2_Shutdown`,
`ImGui::DestroyContext`, `Viewport_CleanupWindow(context)`,
`Viewport_CleanupVulkan(context)`, `SDL_DestroyWindow(h)`, `SDL_Quit`, in this
order, where `h` is the value of the window handle on entry: the bindings are
shut down before the Vulkan window and instance are cleaned up, and those
before the SDL window is destroyed. -/
theorem destroy_trace (g : Ptr) (context : Ptr) :
    (imguiImpl_Destroy g context).trace =
      [ImGui_ImplVulkan_Shutdown context,
       ImGui_ImplSDL2_Shutdown,
       ImGui_DestroyContext,
       Viewport_CleanupWindow context,
       Viewport_CleanupVulkan context,
       SDL_DestroyWindow g,
       SDL_Quit] := by
  rfl

/-- C6 (as stated) fails for `imguiImpl_Init`: with the same arguments, the
call sequence when `SDL_Init` fails differs from the one when every step
succeeds, so the sequence depends on the results of the external calls. -/
theorem init_branches_counterexample :
    (imguiImpl_Init envSdlFails NULL "mandelbrot" 1280 720 1).map (fun r => names r.trace) =
      some ["SDL_Init", "SDL_GetError", "printf"] ∧
    (imguiImpl_Init envOk NULL "mandelbrot" 1280 720 1).map (fun r => names r.trace) ≠
      (imguiImpl_Init envSdlFails NULL "mandelbrot" 1280 720 1).map (fun r => names r.trace) := by
  constructor <;>
    simp [imguiImpl_Init, envSdlFails, envOk, NULL, VK_NULL_HANDLE, names, Event.name]

/-- C6 (amended): `imguiImpl_GetWindowSize`, `imguiImpl_NewFrameSDL` and
`imguiImpl_Destroy` have no branching logic: the sequence of external calls each
makes is the same fixed sequence for all arguments, all states and all results
of the external calls. `imguiImpl_Init` (entered with a non-null context)
branches on three results and makes one of four fixed sequences: it stops after
`SDL_Init` when that returns nonzero, after `Viewport_SetupVulkan` when that
returns a null instance, after `SDL_Vulkan_CreateSurface` when that returns
false (each time reporting the error), and otherwise runs to the end. -/
theorem entry_point_call_sequences (env : Env) (g : Ptr) (title : String)
    (width height : Int) (context : Ptr) (hctx : context ≠ NULL) :
    names (imguiImpl_GetWindowSize env g context).trace = ["SDL_GetWindowSize"] ∧
    names (imguiImpl_NewFrameSDL g context).trace = ["ImGui_ImplSDL2_NewFrame"] ∧
    names (imguiImpl_Destroy g context).trace =
      ["ImGui_ImplVulkan_Shutdown", "ImGui_ImplSDL2_Shutdown", "ImGui::DestroyContext",
       "Viewport_CleanupWindow", "Viewport_CleanupVulkan", "SDL_DestroyWindow", "SDL_Quit"] ∧
    ∃ r, imguiImpl_Init env g title width height context = some r ∧
      names r.trace =
        if env.SDL_Init ≠ 0 then
          ["SDL_Init", "SDL_GetError", "printf"]
        else if env.Viewport_SetupVulkan = VK_NULL_HANDLE then
          ["SDL_Init", "SDL_CreateWindow", "SDL_Vulkan_GetInstanceExtensions",
           "SDL_Vulkan_GetInstanceExtensions", "Viewport_SetupVulkan", "printf"]
        else if env.SDL_Vulkan_CreateSurface = 0 then
          ["SDL_Init", "SDL_CreateWindow", "SDL_Vulkan_GetInstanceExtensions",
           "SDL_Vulkan_GetInstanceExtensions", "Viewport_SetupVulkan",
           "SDL_Vulkan_CreateSurface", "printf"]
        else
          ["SDL_Init", "SDL_CreateWindow", "SDL_Vulkan_GetInstanceExtensions",
           "SDL_Vulkan_GetInstanceExtensions", "Viewport_SetupVulkan",
           "SDL_Vulkan_CreateSurface", "SDL_GetWindowSize", "Viewport_SetupWindow",
           "IMGUI_CHECKVERSION", "ImGui::CreateContext", "ImGui::GetIO",
           "ImGui::StyleColorsDark", "ImGui_ImplSDL2_InitForVulkan",
           "ImGui_ImplVulkan_Init"] := by
  refine ⟨rfl, rfl, rfl, ?_⟩
  by_cases h1 : env.SDL_Init = 0
  · by_cases h2 : env.Viewport_SetupVulkan = VK_NULL_HANDLE
    · exact ⟨_, init_of_instance_fail env g title width height context hctx h1 h2,
        by simp [h1, h2, fullTrace, names, Event.name]⟩
    · by_cases h3 : env.SDL_Vulkan_CreateSurface = 0
      · exact ⟨_, init_of_surface_fail env g title width height context hctx h1 h2 h3,
          by simp [h1, h2, h3, fullTrace, names, Event.name]⟩
      · exact ⟨_, init_of_ok env g title width height context hctx h1 h2 h3,
          by simp [h1, h2, h3, fullTrace, names, Event.name]⟩
  · exact ⟨_, init_of_sdl_fail env g title width height context hctx h1,
      by simp [h1, fullTrace, names, Event.name]⟩

/-- Witness of C6 (amended): the call sequences when the Vulkan instance cannot
be created. -/
theorem entry_point_call_sequences_witness :
    (1 : Ptr) ≠ NULL ∧
    names (imguiImpl_GetWindowSize envInstanceFails 100 1).trace = ["SDL_GetWindowSize"] ∧
    names (imguiImpl_NewFrameSDL 100 1).trace = ["ImGui_ImplSDL2_NewFrame"] ∧
    names (imguiImpl_Destroy 100 1).trace =
      ["ImGui_ImplVulkan_Shutdown", "ImGui_ImplSDL2_Shutdown", "ImGui::DestroyContext",
       "Viewport_CleanupWindow", "Viewport_CleanupVulkan", "SDL_DestroyWindow", "SDL_Quit"] ∧
    ∃ r, imguiImpl_Init envInstanceFails 100 "mandelbrot" 1280 720 1 = some r ∧
      names r.trace =
        ["SDL_Init", "SDL_CreateWindow", "SDL_Vulkan_GetInstanceExtensions",
         "SDL_Vulkan_GetInstanceExtensions", "Viewport_SetupVulkan", "printf"] :=
  ⟨by decide, entry_point_call_sequences envInstanceFails 100 "mandelbrot" 1280 720 1 (by decide)⟩

/-! ## Failure paths and the return value -/

/-- C7: when `imguiImpl_Init` returns `false` it aborts at the failing step
without recovery. There is a successful call with the same arguments and entry
state whose trace strictly extends the failing call's trace up to and including
the failing step (`SDL_Init`, `Viewport_SetupVulkan` or
`SDL_Vulkan_CreateSurface`), and the failing call's trace is that prefix
followed only by the error report (the `printf`, preceded for `SDL_Init` by the
`SDL_GetError` call that supplies its text). No teardown call
(`SDL_DestroyWindow`, `SDL_Quit`, `Viewport_CleanupVulkan`,
`Viewport_CleanupWindow`) is made and no ImGui context is created. If `SDL_Init`
fails the window handle is unchanged; if the instance is null or the surface
fails, the handle is left set to the window just created. -/
theorem init_failure_aborts (env : Env) (g : Ptr) (title : String) (width height : Int)
    (context : Ptr) (r : InitResult)
    (hrun : imguiImpl_Init env g title width height context = some r)
    (hret : r.ret = false) :
    (∃ envS rS k report,
      imguiImpl_Init envS g title width height context = some rS ∧ rS.ret = true ∧
      k < rS.trace.length ∧ r.trace = rS.trace.take k ++ report ∧
      ((env.SDL_Init ≠ 0 ∧
          (names (rS.trace.take k)).getLast? = some "SDL_Init" ∧
          report = [SDL_GetError, printf ("Error: " ++ env.SDL_GetError ++ "\n")]) ∨
       (env.SDL_Init = 0 ∧ env.Viewport_SetupVulkan = VK_NULL_HANDLE ∧
          (names (rS.trace.take k)).getLast? = some "Viewport_SetupVulkan" ∧
          report = [printf "Failed to create Vulkan instance.\n"]) ∨
       (env.SDL_Init = 0 ∧ env.Viewport_SetupVulkan ≠ VK_NULL_HANDLE ∧
          env.SDL_Vulkan_CreateSurface = 0 ∧
          (names (rS.trace.take k)).getLast? = some "SDL_Vulkan_CreateSurface" ∧
          report = [printf "Failed to create Vulkan surface.\n"]))) ∧
    (∀ e ∈ r.trace, e.name ∉ ["SDL_DestroyWindow", "SDL_Quit", "Viewport_CleanupVulkan",
      "Viewport_CleanupWindow", "ImGui::CreateContext"]) ∧
    (env.SDL_Init ≠ 0 → r.g_SDLWindow = g ∧ r.stores = []) ∧
    (env.SDL_Init = 0 → r.g_SDLWindow = env.SDL_CreateWindow) := by
  have hctx := context_ne_of_init env g title width height context r hrun
  have hS := init_of_allSucceed env g title width height context hctx
  by_cases h1 : env.SDL_Init = 0
  · by_cases h2 : env.Viewport_SetupVulkan = VK_NULL_HANDLE
    · rw [init_of_instance_fail env g title width height context hctx h1 h2] at hrun
      cases hrun
      refine ⟨⟨env.allSucceed, _, 5, [printf "Failed to create Vulkan instance.\n"], hS, rfl,
        ?_, ?_, ?_⟩, ?_, ?_, ?_⟩
      · simp [fullTrace]
      · simp [fullTrace, Env.allSucceed]
      · right; left
        simp [h1, h2, fullTrace, names, Event.name]
      · simp [fullTrace, Event.name]
      · simp [h1]
      · simp
    · by_cases h3 : env.SDL_Vulkan_CreateSurface = 0
      · rw [init_of_surface_fail env g title width height context hctx h1 h2 h3] at hrun
        cases hrun
        refine ⟨⟨env.allSucceed, _, 6, [printf "Failed to create Vulkan surface.\n"], hS, rfl,
          ?_, ?_, ?_⟩, ?_, ?_, ?_⟩
        · simp [fullTrace]
        · simp [fullTrace, Env.allSucceed, h2]
        · right; right
          simp [h1, h2, h3, fullTrace, names, Event.name]
        · simp [fullTrace, Event.name]
        · simp [h1]
        · simp
      · rw [init_of_ok env g title width height context hctx h1 h2 h3] at hrun
        cases hrun
        simp at hret
  · rw [init_of_sdl_fail env g title width height context hctx h1] at hrun
    cases hrun
    refine ⟨⟨env.allSucceed, _, 1,
      [SDL_GetError, printf ("Error: " ++ env.SDL_GetError ++ "\n")], hS, rfl,
      ?_, ?_, ?_⟩, ?_, ?_, ?_⟩
    · simp [fullTrace]
    · simp [fullTrace]
    · left
      simp [h1, fullTrace, names, Event.name]
    · simp [fullTrace, Event.name]
    · simp
    · simp [h1]

/-- Witness of C7: a call in which `SDL_Vulkan_CreateSurface` fails, entered
with the handle at `NULL`; the handle is left at the created window `100`. -/
theorem init_failure_aborts_witness :
    imguiImpl_Init envSurfaceFails NULL "mandelbrot" 1280 720 1 =
      some { ret := false, g_SDLWindow := 100, stores := [100],
             trace := (fullTrace envOk "mandelbrot" 1280 720 1).take 6 ++
               [printf "Failed to create Vulkan surface.\n"] } ∧
    (envSurfaceFails.SDL_Init = 0 → (100 : Ptr) = envSurfaceFails.SDL_CreateWindow) ∧
    (∀ e ∈ (fullTrace envOk "mandelbrot" 1280 720 1).take 6 ++
        [printf "Failed to create Vulkan surface.\n"],
      e.name ∉ ["SDL_DestroyWindow", "SDL_Quit", "Viewport_CleanupVulkan",
        "Viewport_CleanupWindow", "ImGui::CreateContext"]) :=
  have hrun : imguiImpl_Init envSurfaceFails NULL "mandelbrot" 1280 720 1 =
      some { ret := false, g_SDLWindow := 100, stores := [100],
             trace := (fullTrace envOk "mandelbrot" 1280 720 1).take 6 ++
               [printf "Failed to create Vulkan surface.\n"] } := by
    simp [imguiImpl_Init, envSurfaceFails, envOk, NULL, VK_NULL_HANDLE, fullTrace]
  have h := init_failure_aborts envSurfaceFails NULL "mandelbrot" 1280 720 1 _ hrun rfl
  ⟨hrun, h.2.2.2, h.2.1⟩

/-- C8: the return value of `imguiImpl_Init` is determined by exactly three
external results: it returns `true` if and only if `SDL_Init` returned `0`,
`Viewport_SetupVulkan` returned a non-null instance and
`SDL_Vulkan_CreateSurface` returned a nonzero result. Two calls that agree on
these three tests return the same value, whatever their titles, widths,
heights, entry states and the other results (`SDL_CreateWindow`, both
`SDL_Vulkan_GetInstanceExtensions` calls, `ImGui_ImplSDL2_InitForVulkan`,
`ImGui_ImplVulkan_Init`, ...). -/
theorem init_return_value (env : Env) (g : Ptr) (title : String) (width height : Int)
    (context : Ptr) (hctx : context ≠ NULL) :
    (∃ r, imguiImpl_Init env g title width height context = some r ∧
      (r.ret = true ↔
        env.SDL_Init = 0 ∧ env.Viewport_SetupVulkan ≠ VK_NULL_HANDLE ∧
        env.SDL_Vulkan_CreateSurface ≠ 0)) ∧
    (∀ (env2 : Env) (g2 : Ptr) (title2 : String) (width2 height2 : Int) (context2 : Ptr),
      context2 ≠ NULL →
      (env2.SDL_Init = 0 ↔ env.SDL_Init = 0) →
      (env2.Viewport_SetupVulkan = VK_NULL_HANDLE ↔ env.Viewport_SetupVulkan = VK_NULL_HANDLE) →
      (env2.SDL_Vulkan_CreateSurface = 0 ↔ env.SDL_Vulkan_CreateSurface = 0) →
      (imguiImpl_Init env2 g2 title2 width2 height2 context2).map InitResult.ret =
        (imguiImpl_Init env g title width height context).map InitResult.ret) := by
  have key : ∀ (e : Env) (g0 : Ptr) (t : String) (w0 h0 : Int) (c : Ptr), c ≠ NULL →
      (imguiImpl_Init e g0 t w0 h0 c).map InitResult.ret =
        some (decide (e.SDL_Init = 0 ∧ e.Viewport_SetupVulkan ≠ VK_NULL_HANDLE ∧
          e.SDL_Vulkan_CreateSurface ≠ 0)) := by
    intro e g0 t w0 h0 c hc
    by_cases h1 : e.SDL_Init = 0
    · by_cases h2 : e.Viewport_SetupVulkan = VK_NULL_HANDLE
      · simp [init_of_instance_fail e g0 t w0 h0 c hc h1 h2, h1, h2]
      · by_cases h3 : e.SDL_Vulkan_CreateSurface = 0
        · simp [init_of_surface_fail e g0 t w0 h0 c hc h1 h2 h3, h1, h2, h3]
        · simp [init_of_ok e g0 t w0 h0 c hc h1 h2 h3, h1, h2, h3]
    · simp [init_of_sdl_fail e g0 t w0 h0 c hc h1, h1]
  constructor
  · obtain ⟨r, hr⟩ := init_isSome env g title width height context hctx
    refine ⟨r, hr, ?_⟩
    have hk := key env g title width height context hctx
    rw [hr] at hk
    simp only [Option.map_some', Option.some.injEq] at hk
    rw [hk]
    simp
  · intro env2 g2 title2 width2 height2 context2 hctx2 e1 e2 e3
    rw [key env2 g2 title2 width2 height2 context2 hctx2,
      key env g title width height context hctx]
    simp [e1, e2, e3]

/-- Witness of C8: the call in `envRendererFails`, where every unchecked step
may fail and the three checked ones succeed. -/
theorem init_return_value_witness :
    (1 : Ptr) ≠ NULL ∧
    (∃ r, imguiImpl_Init envRendererFails NULL "mandelbrot" 1280 720 1 = some r ∧
      (r.ret = true ↔
        envRendererFails.SDL_Init = 0 ∧ envRendererFails.Viewport_SetupVulkan ≠ VK_NULL_HANDLE ∧
        envRendererFails.SDL_Vulkan_CreateSurface ≠ 0)) ∧
    (imguiImpl_Init envOk 100 "julia" 640 480 7).map InitResult.ret =
      (imguiImpl_Init envRendererFails NULL "mandelbrot" 1280 720 1).map InitResult.ret :=
  ⟨by decide,
    (init_return_value envRendererFails NULL "mandelbrot" 1280 720 1 (by decide)).1,
    (init_return_value envRendererFails NULL "mandelbrot" 1280 720 1 (by decide)).2
      envOk 100 "julia" 640 480 7 (by decide) Iff.rfl Iff.rfl Iff.rfl⟩

/-- C9: on every call of `imguiImpl_Init` that reaches framebuffer setup (the
`SDL_GetWindowSize` call of line 60), `Viewport_SetupWindow` is called exactly
once, with the caller's context, the surface written by
`SDL_Vulkan_CreateSurface` (itself called on the created window and the
instance returned by `Viewport_SetupVulkan`), the width and height reported by
`SDL_GetWindowSize` for the created window (not the `width` and `height`
arguments of Init), sample count `VK_SAMPLE_COUNT_1_BIT`, minimum image count
`2` and `clear_enable` true. -/
theorem init_setup_window_call (env : Env) (g : Ptr) (title : String) (width height : Int)
    (context : Ptr) (r : InitResult)
    (hrun : imguiImpl_Init env g title width height context = some r)
    (hreach : "SDL_GetWindowSize" ∈ names r.trace) :
    r.trace.filter (fun e => e.name = "Viewport_SetupWindow") =
      [Viewport_SetupWindow context env.surface env.w env.h VK_SAMPLE_COUNT_1_BIT 2 true] ∧
    r.trace.filter (fun e => e.name = "SDL_Vulkan_CreateSurface") =
      [SDL_Vulkan_CreateSurface env.SDL_CreateWindow env.Viewport_SetupVulkan] ∧
    r.trace.filter (fun e => e.name = "SDL_GetWindowSize") =
      [SDL_GetWindowSize env.SDL_CreateWindow] ∧
    r.trace.filter (fun e => e.name = "Viewport_SetupVulkan") =
      [Viewport_SetupVulkan context env.fill_names env.fill_count] := by
  have hctx := context_ne_of_init env g title width height context r hrun
  by_cases h1 : env.SDL_Init = 0
  · by_cases h2 : env.Viewport_SetupVulkan = VK_NULL_HANDLE
    · rw [init_of_instance_fail env g title width height context hctx h1 h2] at hrun
      cases hrun
      simp [fullTrace, names, Event.name] at hreach
    · by_cases h3 : env.SDL_Vulkan_CreateSurface = 0
      · rw [init_of_surface_fail env g title width height context hctx h1 h2 h3] at hrun
        cases hrun
        simp [fullTrace, names, Event.name] at hreach
      · rw [init_of_ok env g title width height context hctx h1 h2 h3] at hrun
        cases hrun
        simp [fullTrace, Event.name, List.filter_cons]
  · rw [init_of_sdl_fail env g title width height context hctx h1] at hrun
    cases hrun
    simp [fullTrace, names, Event.name] at hreach

/-- Witness of C9: Init is asked for a 1280 by 720 window, SDL reports 2560 by
1440 (a high-DPI display), and `Viewport_SetupWindow` receives 2560 by 1440. -/
theorem init_setup_window_call_witness :
    imguiImpl_Init { envOk with w := 2560, h := 1440 } NULL "mandelbrot" 1280 720 1 =
      some { ret := true, g_SDLWindow := 100, stores := [100],
             trace := fullTrace { envOk with w := 2560, h := 1440 } "mandelbrot" 1280 720 1 } ∧
    "SDL_GetWindowSize" ∈
      names (fullTrace { envOk with w := 2560, h := 1440 } "mandelbrot" 1280 720 1) ∧
    (fullTrace { envOk with w := 2560, h := 1440 } "mandelbrot" 1280 720 1).filter
        (fun e => e.name = "Viewport_SetupWindow") =
      [Viewport_SetupWindow 1 300 2560 1440 VK_SAMPLE_COUNT_1_BIT 2 true] :=
  have hrun : imguiImpl_Init { envOk with w := 2560, h := 1440 } NULL "mandelbrot" 1280 720 1 =
      some { ret := true, g_SDLWindow := 100, stores := [100],
             trace := fullTrace { envOk with w := 2560, h := 1440 } "mandelbrot" 1280 720 1 } := by
    simp [imguiImpl_Init, envOk, NULL, VK_NULL_HANDLE, fullTrace]
  have hreach : "SDL_GetWindowSize" ∈
      names (fullTrace { envOk with w := 2560, h := 1440 } "mandelbrot" 1280 720 1) := by
    simp [fullTrace, names, Event.name]
  ⟨hrun, hreach,
    (init_setup_window_call { envOk with w := 2560, h := 1440 } NULL "mandelbrot" 1280 720 1 _
      hrun hreach).1⟩

/-! ## The per-frame entry points -/

theorem int_as_uint32_neg_one : int_as_uint32 (-1) = 4294967295 := by
  decide


/-- C10: for every state and every context, `imguiImpl_GetWindowSize` makes
exactly one external call, `SDL_GetWindowSize` on the stored window handle, and
writes to `*width` and `*height` the `int` values that call reports,
reinterpreted as `uint32_t` (the value modulo `2^32`); the result does not
depend on the context argument, and the window handle is unchanged. Likewise
`imguiImpl_NewFrameSDL` makes exactly one call, `ImGui_ImplSDL2_NewFrame` on the
stored handle, independent of the context. -/
theorem get_window_size_and_new_frame (env : Env) (g : Ptr) (context : Ptr) :
    (imguiImpl_GetWindowSize env g context).trace = [SDL_GetWindowSize g] ∧
    ((imguiImpl_GetWindowSize env g context).width : Int) = env.w % 2 ^ 32 ∧
    ((imguiImpl_GetWindowSize env g context).height : Int) = env.h % 2 ^ 32 ∧
    (imguiImpl_GetWindowSize env g context).width < 2 ^ 32 ∧
    (imguiImpl_GetWindowSize env g context).height < 2 ^ 32 ∧
    (imguiImpl_GetWindowSize env g context).g_SDLWindow = g ∧
    (∀ context2 : Ptr,
      imguiImpl_GetWindowSize env g context2 = imguiImpl_GetWindowSize env g context) ∧
    (imguiImpl_NewFrameSDL g context).trace = [ImGui_ImplSDL2_NewFrame g] ∧
    (imguiImpl_NewFrameSDL g context).g_SDLWindow = g ∧
    (∀ context2 : Ptr, imguiImpl_NewFrameSDL g context2 = imguiImpl_NewFrameSDL g context) := by
  have hpos : (0 : Int) < 2 ^ 32 := by norm_num
  have hw0 : 0 ≤ env.w % 2 ^ 32 := Int.emod_nonneg _ (ne_of_gt hpos)
  have hh0 : 0 ≤ env.h % 2 ^ 32 := Int.emod_nonneg _ (ne_of_gt hpos)
  have hw1 : env.w % 2 ^ 32 < 2 ^ 32 := Int.emod_lt_of_pos _ hpos
  have hh1 : env.h % 2 ^ 32 < 2 ^ 32 := Int.emod_lt_of_pos _ hpos
  refine ⟨rfl, ?_, ?_, ?_, ?_, rfl, fun _ => rfl, rfl, rfl, fun _ => rfl⟩
  · simp only [imguiImpl_GetWindowSize, int_as_uint32]
    exact Int.toNat_of_nonneg hw0
  · simp only [imguiImpl_GetWindowSize, int_as_uint32]
    exact Int.toNat_of_nonneg hh0
  · simp only [imguiImpl_GetWindowSize, int_as_uint32]
    omega
  · simp only [imguiImpl_GetWindowSize, int_as_uint32]
    omega

end ImguiImpl
